import Mathlib

/-!
Verification of the credential-resolution logic of the googleMCP repository.

The development shallowly embeds:
* `get_credentials` and `create_service` from `src/mcp_google_shared/auth.py`
  (the shared resolver);
* the startup credential logic of the server variants
  (`spreadsheet_lifespan` in `src/mcp_google_sheets/__init__.py`,
  `drive_lifespan` in `src/mcp_google_drive/__init__.py`,
  `gmail_lifespan`, `docs_lifespan`, `calendar_lifespan`, `meet_lifespan`,
  all following the identical pattern);
* the tool-dispatch contexts and tool bodies of the sheets and drive servers.

External collaborators (the google-auth library calls `refresh`,
`run_local_server`, `build`) are modelled as oracle fields of an `Env`
record: the environment decides whether each external call succeeds and
what it returns.  The filesystem is an association list from paths to
parsed file contents; an unparsable file is the `invalid` constructor.
Machine-level details (actual JSON text, base64) are abstracted to the
parse outcome, which is exactly what the control flow of the source
depends on.
-/

namespace GoogleMCP

/-- A stored user OAuth credential, as held in a token file and as produced
by `google.oauth2.credentials.Credentials`: an optional access token, an
optional refresh token, an optional expiry instant and the scope list. -/
structure UserCred where
  token : Option String
  refreshToken : Option String
  expiry : Option Nat
  scopes : List String
deriving Repr, DecidableEq

/-- `Credentials.expired`: the expiry is set and has passed. -/
def UserCred.expired (c : UserCred) (now : Nat) : Bool :=
  match c.expiry with
  | some e => decide (e ≤ now)
  | none => false

/-- `Credentials.valid`: a token is present and not expired. -/
def UserCred.valid (c : UserCred) (now : Nat) : Bool :=
  c.token.isSome && !(c.expired now)

/-- `Credentials.from_authorized_user_info(info, scopes)`: rebuilds the
stored credential, scoped to the requested scopes. -/
def from_authorized_user_info (c : UserCred) (scopes : List String) : UserCred :=
  { c with scopes := scopes }

/-- Parsed content of a file on disk: a service-account key, a stored user
token, an OAuth client-secrets file, or an unparsable file. -/
inductive FileData where
  | saKey (info : String)
  | userToken (c : UserCred)
  | clientSecrets (info : String)
  | invalid
deriving Repr, DecidableEq

/-- The filesystem: an association list from paths to file contents. -/
abbrev FS := List (String × FileData)

/-- Path lookup (`os.path.exists` succeeds iff this is `some`). -/
def FS.lookup (fs : FS) (p : String) : Option FileData :=
  match fs with
  | [] => none
  | (q, d) :: rest => if q = p then some d else FS.lookup rest p

/-- Whole-file overwrite at a path. -/
def FS.write (fs : FS) (p : String) (d : FileData) : FS :=
  match fs with
  | [] => [(p, d)]
  | (q, e) :: rest => if q = p then (p, d) :: rest else (q, e) :: FS.write rest p d

/-- The resolved credential: a service-account credential (from the inline
config or a key file) or a user OAuth credential. -/
inductive CredRecord where
  | serviceAccount (info : String) (scopes : List String)
  | user (c : UserCred)
deriving Repr, DecidableEq

/-- State of the `CREDENTIALS_CONFIG` environment variable: unset, set but
failing base64/JSON/service-account parsing, or well-formed. -/
inductive Inline where
  | absent
  | malformed
  | wellFormed (info : String)
deriving Repr, DecidableEq

/-- Observable events of a resolution run: file reads and writes, the
external refresh and interactive-flow calls, client construction, and log
emissions. -/
inductive Ev where
  | resolveStart
  | readFile (p : String)
  | wroteFile (p : String)
  | refreshCall
  | flowRun
  | buildCall (api : String)
  | warned (what : String)
  | errored (what : String)
deriving Repr, DecidableEq

/-- The process environment: configuration inputs and the oracles deciding
the outcome of each external call (`refresh`, `run_local_server`, token
save, `build`). -/
structure Env where
  inline : Inline
  tokenPath : String
  credentialsPath : String
  serviceAccountPath : String
  now : Nat
  refreshResult : Option (String × Nat)
  flowResult : Option UserCred
  writeFails : Bool
  buildFails : Bool
deriving Repr, DecidableEq

/-- Result of one resolver run: the credential (`none` is the
authentication failure the spec calls AuthenticationError), the final
filesystem, and the event trace. -/
structure AuthResult where
  creds : Option CredRecord
  fs : FS
  events : List Ev
deriving Repr, DecidableEq

/-- Strategy 2 of `get_credentials` (auth.py lines 52-60): the
service-account file strategy succeeds iff the configured path is nonempty,
exists, and holds a parsable service-account key. -/
def saFileKey (env : Env) (fs : FS) : Option String :=
  if env.serviceAccountPath = "" then none
  else
    match FS.lookup fs env.serviceAccountPath with
    | some (FileData.saKey info) => some info
    | _ => none

/-- Token persistence (auth.py lines 87-93): the save is attempted; a write
failure is swallowed with a warning and leaves the filesystem unchanged. -/
def saveToken (env : Env) (fs : FS) (c : UserCred) (evs : List Ev) : FS × List Ev :=
  if env.writeFails then (fs, evs ++ [Ev.warned "save_token"])
  else (FS.write fs env.tokenPath (FileData.userToken c), evs ++ [Ev.wroteFile env.tokenPath])

/-- The interactive branch of `get_credentials` (auth.py lines 78-93): if
the client-secrets file is missing, log and return None; if it is
unparsable or the local-server flow fails, the raised exception is caught
by the outer handler (line 94) and resolution returns None; on success the
token is saved and returned. -/
def interactiveBranch (env : Env) (fs : FS) (scopes : List String) (evs : List Ev) :
    AuthResult :=
  match FS.lookup fs env.credentialsPath with
  | none => { creds := none, fs := fs, events := evs ++ [Ev.errored "credentials_missing"] }
  | some (FileData.clientSecrets _) =>
      match env.flowResult with
      | none => { creds := none, fs := fs, events := evs ++ [Ev.flowRun, Ev.errored "auth"] }
      | some c =>
          let c2 := { c with scopes := scopes }
          let r := saveToken env fs c2 (evs ++ [Ev.flowRun])
          { creds := some (CredRecord.user c2), fs := r.1, events := r.2 }
  | some _ => { creds := none, fs := fs, events := evs ++ [Ev.errored "auth"] }

/-- Step 4 of `get_credentials` (auth.py lines 71-96): if the loaded
credential is missing or invalid, refresh it when it is expired with a
refresh token (a refresh failure is caught by the outer handler and fails
resolution), otherwise run the interactive flow; in either success case
persist the token. -/
def refreshOrFlow (env : Env) (fs : FS) (scopes : List String)
    (creds : Option UserCred) (evs : List Ev) : AuthResult :=
  match creds with
  | some c =>
      if c.valid env.now then
        { creds := some (CredRecord.user c), fs := fs, events := evs }
      else if c.expired env.now && c.refreshToken.isSome then
        match env.refreshResult with
        | none =>
            { creds := none, fs := fs, events := evs ++ [Ev.refreshCall, Ev.errored "auth"] }
        | some (t, e) =>
            let c2 : UserCred := { c with token := some t, expiry := some e }
            let r := saveToken env fs c2 (evs ++ [Ev.refreshCall])
            { creds := some (CredRecord.user c2), fs := r.1, events := r.2 }
      else interactiveBranch env fs scopes evs
  | none => interactiveBranch env fs scopes evs

/-- Strategy 3 of `get_credentials` (auth.py lines 62-69) followed by
step 4: load the token file, swallowing load failures with a warning, then
validate/refresh/flow. -/
def tokenStage (env : Env) (fs : FS) (scopes : List String) (evs : List Ev) : AuthResult :=
  match FS.lookup fs env.tokenPath with
  | some (FileData.userToken c) =>
      refreshOrFlow env fs scopes (some (from_authorized_user_info c scopes))
        (evs ++ [Ev.readFile env.tokenPath])
  | some _ =>
      refreshOrFlow env fs scopes none
        (evs ++ [Ev.readFile env.tokenPath, Ev.warned "token"])
  | none => refreshOrFlow env fs scopes none evs

/-- `get_credentials(scopes)` from `src/mcp_google_shared/auth.py` lines
25-98: strategy 1 (inline config) returns immediately on success and falls
through with a warning on parse failure; strategy 2 (service-account file)
likewise; strategy 3 loads the token file, swallowing load failures; step 4
refreshes or runs the interactive flow and persists the result. -/
def get_credentials (env : Env) (fs : FS) (scopes : List String) : AuthResult :=
  let evs0 : List Ev := [Ev.resolveStart]
  match env.inline with
  | Inline.wellFormed info =>
      { creds := some (CredRecord.serviceAccount info scopes), fs := fs, events := evs0 }
  | i =>
      let evs1 := if i = Inline.malformed then evs0 ++ [Ev.warned "CREDENTIALS_CONFIG"] else evs0
      match saFileKey env fs with
      | some info =>
          { creds := some (CredRecord.serviceAccount info scopes), fs := fs, events := evs1 }
      | none =>
          let evs2 :=
            if env.serviceAccountPath ≠ "" ∧ (FS.lookup fs env.serviceAccountPath).isSome
            then evs1 ++ [Ev.warned "service_account"] else evs1
          tokenStage env fs scopes evs2

/-- A constructed Google API client handle: API name, version, and the
credential it was built from. -/
structure ServiceHandle where
  apiName : String
  apiVersion : String
  creds : CredRecord
deriving Repr, DecidableEq

/-- Result of `create_service`. -/
structure ServiceResult where
  service : Option ServiceHandle
  fs : FS
  events : List Ev
deriving Repr, DecidableEq

/-- `create_service(api_name, api_version, scopes)` from auth.py lines
100-123: one call to `get_credentials`; on failure log and return None
without calling `build`; otherwise call `build`, whose own failure also
yields None. -/
def create_service (env : Env) (fs : FS) (apiName apiVersion : String)
    (scopes : List String) : ServiceResult :=
  let r := get_credentials env fs scopes
  match r.creds with
  | none => { service := none, fs := r.fs, events := r.events ++ [Ev.errored "no_creds"] }
  | some c =>
      if env.buildFails then
        { service := none, fs := r.fs
          events := r.events ++ [Ev.buildCall apiName, Ev.errored "build"] }
      else
        { service := some ⟨apiName, apiVersion, c⟩, fs := r.fs
          events := r.events ++ [Ev.buildCall apiName] }

/-- Outcome of a variant lifespan's credential stage: a resolved credential
with the final filesystem and trace, or an uncaught exception (`raised`)
that aborts server startup. -/
inductive LifespanResult where
  | ok (creds : CredRecord) (fs : FS) (events : List Ev)
  | raised (what : String) (fs : FS) (events : List Ev)
deriving Repr, DecidableEq

/-- The interactive-flow step of a variant lifespan (e.g. sheets
`__init__.py` lines 80-81): `from_client_secrets_file` raises when the
client-secrets file is missing or unparsable, and `run_local_server` may
fail; both exceptions are uncaught here. -/
def lifespanFlow (env : Env) (fs : FS) (scopes : List String) : Except String UserCred :=
  match FS.lookup fs env.credentialsPath with
  | some (FileData.clientSecrets _) =>
      match env.flowResult with
      | none => Except.error "flow"
      | some c => Except.ok { c with scopes := scopes }
  | _ => Except.error "client_secrets"

/-- Lines 76-83 of the sheets lifespan (identical in the other variants):
an invalid loaded credential is refreshed when expired with a refresh
token, otherwise the flow runs; the new token is written to the token
file.  Unlike `get_credentials`, a refresh, flow, or write failure raises
out of the lifespan. -/
def lifespanRefresh (env : Env) (fs : FS) (scopes : List String)
    (creds : Option UserCred) (evs : List Ev) : LifespanResult :=
  let fresh : Except String (UserCred × List Ev) :=
    match creds with
    | some c =>
        if c.expired env.now && c.refreshToken.isSome then
          match env.refreshResult with
          | none => Except.error "refresh"
          | some (t, e) =>
              Except.ok ({ c with token := some t, expiry := some e }, evs ++ [Ev.refreshCall])
        else (lifespanFlow env fs scopes).map (fun c2 => (c2, evs ++ [Ev.flowRun]))
    | none => (lifespanFlow env fs scopes).map (fun c2 => (c2, evs ++ [Ev.flowRun]))
  match fresh with
  | Except.error w => LifespanResult.raised w fs evs
  | Except.ok (c2, evs2) =>
      if env.writeFails then LifespanResult.raised "token_write" fs evs2
      else
        LifespanResult.ok (CredRecord.user c2)
          (FS.write fs env.tokenPath (FileData.userToken c2))
          (evs2 ++ [Ev.wroteFile env.tokenPath])

/-- The OAuth fallback of a variant lifespan (sheets lines 71-83): the
token-file load has no exception handler, so an unparsable token file
raises; a loaded valid credential is used as is. -/
def lifespanOauth (env : Env) (fs : FS) (scopes : List String) : LifespanResult :=
  let validate (creds : Option UserCred) (evs : List Ev) : LifespanResult :=
    match creds with
    | some c =>
        if c.valid env.now then LifespanResult.ok (CredRecord.user c) fs evs
        else lifespanRefresh env fs scopes (some c) evs
    | none => lifespanRefresh env fs scopes none evs
  match FS.lookup fs env.tokenPath with
  | some (FileData.userToken c) =>
      validate (some (from_authorized_user_info c scopes)) [Ev.readFile env.tokenPath]
  | some _ => LifespanResult.raised "token_parse" fs [Ev.readFile env.tokenPath]
  | none => validate none []

/-- The credential stage shared verbatim by the six variant lifespans
(`spreadsheet_lifespan`, `drive_lifespan`, `gmail_lifespan`,
`docs_lifespan`, `calendar_lifespan`, `meet_lifespan`): the inline config
is parsed with NO exception handler (a parse failure raises, sheets lines
57-60); the service-account file strategy is then attempted whenever the
file exists, overwriting any inline credential on success and setting the
credential to None on parse failure (lines 62-69); only if no credential
survives these two stages does the OAuth fallback run (line 71). -/
def lifespan_credentials (env : Env) (fs : FS) (scopes : List String) : LifespanResult :=
  match env.inline with
  | Inline.malformed => LifespanResult.raised "inline_parse" fs []
  | i =>
      let creds0 : Option CredRecord :=
        match i with
        | Inline.wellFormed info => some (CredRecord.serviceAccount info scopes)
        | _ => none
      let creds1 : Option CredRecord :=
        if env.serviceAccountPath = "" then creds0
        else
          match FS.lookup fs env.serviceAccountPath with
          | some (FileData.saKey info) => some (CredRecord.serviceAccount info scopes)
          | some _ => none
          | none => creds0
      match creds1 with
      | some c => LifespanResult.ok c fs []
      | none => lifespanOauth env fs scopes

/-- Scope list of the sheets server. -/
def SHEETS_SCOPES : List String :=
  ["https://www.googleapis.com/auth/spreadsheets", "https://www.googleapis.com/auth/drive"]

/-- Scope list of the drive server. -/
def DRIVE_SCOPES : List String := ["https://www.googleapis.com/auth/drive"]

/-- `SpreadsheetContext` from `src/mcp_google_sheets/__init__.py`. -/
structure SpreadsheetContext where
  sheets_service : ServiceHandle
  drive_service : ServiceHandle
  folder_id : Option String
deriving Repr, DecidableEq

/-- `DriveContext` from `src/mcp_google_drive/__init__.py`. -/
structure DriveContext where
  drive_service : ServiceHandle
deriving Repr, DecidableEq

/-- Outcome of a lifespan: the single context it yields, or an aborted
startup. -/
inductive LifespanCtx (α : Type) where
  | ok (ctx : α) (fs : FS) (events : List Ev)
  | raised (what : String) (fs : FS) (events : List Ev)
deriving Repr, DecidableEq

/-- `spreadsheet_lifespan`: resolve credentials, build the sheets and
drive handles, and yield exactly one `SpreadsheetContext`. -/
def spreadsheet_lifespan (env : Env) (fs : FS) (folderId : Option String) :
    LifespanCtx SpreadsheetContext :=
  match lifespan_credentials env fs SHEETS_SCOPES with
  | LifespanResult.raised w fs2 evs => LifespanCtx.raised w fs2 evs
  | LifespanResult.ok c fs2 evs =>
      if env.buildFails then LifespanCtx.raised "build" fs2 (evs ++ [Ev.buildCall "sheets"])
      else
        LifespanCtx.ok
          { sheets_service := ⟨"sheets", "v4", c⟩
            drive_service := ⟨"drive", "v3", c⟩
            folder_id := folderId }
          fs2 (evs ++ [Ev.buildCall "sheets", Ev.buildCall "drive"])

/-- `drive_lifespan`: resolve credentials, build the drive handle, and
yield exactly one `DriveContext`. -/
def drive_lifespan (env : Env) (fs : FS) : LifespanCtx DriveContext :=
  match lifespan_credentials env fs DRIVE_SCOPES with
  | LifespanResult.raised w fs2 evs => LifespanCtx.raised w fs2 evs
  | LifespanResult.ok c fs2 evs =>
      if env.buildFails then LifespanCtx.raised "build" fs2 (evs ++ [Ev.buildCall "drive"])
      else
        LifespanCtx.ok { drive_service := ⟨"drive", "v3", c⟩ } fs2
          (evs ++ [Ev.buildCall "drive"])

/-- The tool calls exposed by the sheets server
(`src/mcp_google_sheets/__init__.py`), with their parameters. -/
inductive SheetsTool where
  | list_sheets (spreadsheet_id : String)
  | create_spreadsheet (title : String) (sheets : Option (List String))
  | get_spreadsheet (spreadsheet_id : String) (include_grid_data : Bool)
  | list_spreadsheets (query : Option String) (page_size : Nat)
      (page_token : Option String) (order_by : Option String)
  | get_values (spreadsheet_id : String) (range_name : String) (value_render_option : String)
  | update_values (spreadsheet_id : String) (range_name : String)
      (values : List (List String)) (value_input_option : String)
  | append_values (spreadsheet_id : String) (range_name : String)
      (values : List (List String)) (value_input_option : String) (insert_data_option : String)
  | clear_values (spreadsheet_id : String) (range_name : String)
  | add_sheet (spreadsheet_id : String) (title : String) (rows : Nat) (columns : Nat)
  | delete_sheet (spreadsheet_id : String) (sheet_id : Nat)
  | rename_sheet (spreadsheet_id : String) (sheet_id : Nat) (new_title : String)
  | share_spreadsheet (spreadsheet_id : String) (recipients : List (String × String))
      (send_notification : Bool)
deriving Repr, DecidableEq

/-- The tool calls exposed by the drive server
(`src/mcp_google_drive/__init__.py`). -/
inductive DriveTool where
  | search_files (query : String) (page_size : Nat) (page_token : Option String)
      (order_by : Option String)
  | create_folder (name : String) (parent_id : Option String)
  | upload_file (name : String) (mime_type : String) (content_base64 : String)
      (parent_id : Option String)
  | move_file (file_id : String) (new_parent_id : String)
  | rename_file (file_id : String) (new_name : String)
  | delete_file (file_id : String)
  | get_file_content (file_id : String)
  | share_file (file_id : String) (recipients : List (String × String))
      (send_notification : Bool)
  | get_file_metadata (file_id : String)
deriving Repr, DecidableEq

/-- An external operation a tool body forwards to: a direct call on an API
handle, or a call into the imported implementation module. -/
inductive ExtCall where
  | apiGet (svc : ServiceHandle) (spreadsheet_id : String)
  | implCall (fn : String) (folder : Option String) (args : List String)
deriving Repr, DecidableEq

/-- One sheets tool invocation, translated body by body: `list_sheets`
reads `ctx.request_context.lifespan_context.sheets_service` and calls the
API; `create_spreadsheet` reads `folder_id`; every other body forwards its
arguments to the implementation module without touching the context.  No
body assigns to any context field, so each returns the context it was
given. -/
def runSheetsTool (ext : ExtCall → String) (ctx : SpreadsheetContext) :
    SheetsTool → String × SpreadsheetContext
  | SheetsTool.list_sheets sid =>
      (ext (ExtCall.apiGet ctx.sheets_service sid), ctx)
  | SheetsTool.create_spreadsheet title sheets =>
      (ext (ExtCall.implCall "create_spreadsheet" ctx.folder_id (title :: sheets.getD [])), ctx)
  | SheetsTool.get_spreadsheet sid grid =>
      (ext (ExtCall.implCall "get_spreadsheet" none [sid, toString grid]), ctx)
  | SheetsTool.list_spreadsheets q ps pt ob =>
      (ext (ExtCall.implCall "list_spreadsheets" none
        [q.getD "", toString ps, pt.getD "", ob.getD ""]), ctx)
  | SheetsTool.get_values sid rng vro =>
      (ext (ExtCall.implCall "get_values" none [sid, rng, vro]), ctx)
  | SheetsTool.update_values sid rng vals vio =>
      (ext (ExtCall.implCall "update_values" none ([sid, rng, vio] ++ vals.flatten)), ctx)
  | SheetsTool.append_values sid rng vals vio ido =>
      (ext (ExtCall.implCall "append_values" none ([sid, rng, vio, ido] ++ vals.flatten)), ctx)
  | SheetsTool.clear_values sid rng =>
      (ext (ExtCall.implCall "clear_values" none [sid, rng]), ctx)
  | SheetsTool.add_sheet sid title rows cols =>
      (ext (ExtCall.implCall "add_sheet" none [sid, title, toString rows, toString cols]), ctx)
  | SheetsTool.delete_sheet sid shid =>
      (ext (ExtCall.implCall "delete_sheet" none [sid, toString shid]), ctx)
  | SheetsTool.rename_sheet sid shid newTitle =>
      (ext (ExtCall.implCall "rename_sheet" none [sid, toString shid, newTitle]), ctx)
  | SheetsTool.share_spreadsheet sid rcpts notify =>
      (ext (ExtCall.implCall "share_spreadsheet" none
        ([sid, toString notify] ++ rcpts.map Prod.fst)), ctx)

/-- One drive tool invocation: every body forwards its arguments to the
implementation module; none reads or writes a context field. -/
def runDriveTool (ext : ExtCall → String) (ctx : DriveContext) :
    DriveTool → String × DriveContext
  | DriveTool.search_files q ps pt ob =>
      (ext (ExtCall.implCall "search_files" none [q, toString ps, pt.getD "", ob.getD ""]), ctx)
  | DriveTool.create_folder name parent =>
      (ext (ExtCall.implCall "create_folder" none [name, parent.getD ""]), ctx)
  | DriveTool.upload_file name mime content parent =>
      (ext (ExtCall.implCall "upload_file" none [name, mime, content, parent.getD ""]), ctx)
  | DriveTool.move_file fid newParent =>
      (ext (ExtCall.implCall "move_file" none [fid, newParent]), ctx)
  | DriveTool.rename_file fid newName =>
      (ext (ExtCall.implCall "rename_file" none [fid, newName]), ctx)
  | DriveTool.delete_file fid =>
      (ext (ExtCall.implCall "delete_file" none [fid]), ctx)
  | DriveTool.get_file_content fid =>
      (ext (ExtCall.implCall "get_file_content" none [fid]), ctx)
  | DriveTool.share_file fid rcpts notify =>
      (ext (ExtCall.implCall "share_file" none
        ([fid, toString notify] ++ rcpts.map Prod.fst)), ctx)
  | DriveTool.get_file_metadata fid =>
      (ext (ExtCall.implCall "get_file_metadata" none [fid]), ctx)

/-- The dispatcher loop of the sheets server: serve a sequence of tool
calls against the context produced at startup, threading the context
through each call. -/
def serveSheets (ext : ExtCall → String) (ctx : SpreadsheetContext) :
    List SheetsTool → List String × SpreadsheetContext
  | [] => ([], ctx)
  | t :: ts =>
      let r := runSheetsTool ext ctx t
      let rest := serveSheets ext r.2 ts
      (r.1 :: rest.1, rest.2)

/-- The dispatcher loop of the drive server. -/
def serveDrive (ext : ExtCall → String) (ctx : DriveContext) :
    List DriveTool → List String × DriveContext
  | [] => ([], ctx)
  | t :: ts =>
      let r := runDriveTool ext ctx t
      let rest := serveDrive ext r.2 ts
      (r.1 :: rest.1, rest.2)

/-! ## Concrete fixtures -/

/-- A default scope request. -/
def scopes0 : List String := ["s1"]

/-- A baseline environment: no inline config, default paths, clock at 100,
all external calls failing unless a fixture overrides them. -/
def baseEnv : Env :=
  { inline := Inline.absent
    tokenPath := "token.json"
    credentialsPath := "credentials.json"
    serviceAccountPath := "service_account.json"
    now := 100
    refreshResult := none
    flowResult := none
    writeFails := false
    buildFails := false }

/-- A stored credential already expired at time 100, with a refresh token. -/
def expiredCred : UserCred :=
  { token := some "tok", refreshToken := some "r", expiry := some 50, scopes := ["s1"] }

/-- A stored credential still valid at time 100. -/
def validCred : UserCred :=
  { token := some "tok", refreshToken := some "r", expiry := some 900, scopes := ["s1"] }

/-- The credential a successful interactive flow returns. -/
def flowCred0 : UserCred :=
  { token := some "ft", refreshToken := some "fr", expiry := some 500, scopes := [] }

/-- Environment with a well-formed inline config (contents `A`). -/
def envC1 : Env := { baseEnv with inline := Inline.wellFormed "A" }

/-- Filesystem holding a parsable service-account key (contents `B`). -/
def fsC1 : FS := [("service_account.json", FileData.saKey "B")]

/-- Environment whose refresh oracle fails while the interactive flow
would succeed. -/
def envC2 : Env := { baseEnv with flowResult := some flowCred0 }

/-- Filesystem with an expired stored token and a client-secrets file. -/
def fsC2 : FS :=
  [("token.json", FileData.userToken expiredCred),
   ("credentials.json", FileData.clientSecrets "cs")]

/-- Environment whose inline config is present but malformed. -/
def envC5 : Env := { baseEnv with inline := Inline.malformed }

/-- Events a resolver run may append after its initial `resolveStart`:
anything except another resolution start or a client construction. -/
def tailBenign (l : List Ev) : Prop :=
  Ev.resolveStart ∉ l ∧ ∀ a, Ev.buildCall a ∉ l

/-! ## Helper lemmas -/

theorem tailBenign_nil : tailBenign [] := by
  simp [tailBenign]

theorem tailBenign_append {l1 l2 : List Ev} (h1 : tailBenign l1) (h2 : tailBenign l2) :
    tailBenign (l1 ++ l2) := by
  obtain ⟨a1, b1⟩ := h1
  obtain ⟨a2, b2⟩ := h2
  refine ⟨?_, ?_⟩
  · simp [List.mem_append, a1, a2]
  · intro a
    simp [List.mem_append, b1 a, b2 a]

theorem saveToken_events (env : Env) (fs : FS) (c : UserCred) (evs : List Ev) :
    ∃ extra, (saveToken env fs c evs).2 = evs ++ extra ∧ tailBenign extra := by
  simp only [saveToken]
  split
  · exact ⟨[Ev.warned "save_token"], rfl, by simp [tailBenign]⟩
  · exact ⟨[Ev.wroteFile env.tokenPath], rfl, by simp [tailBenign]⟩

theorem saveToken_events_after (env : Env) (fs : FS) (c : UserCred) (evs : List Ev) (e : Ev)
    (he1 : e ≠ Ev.resolveStart) (he2 : ∀ a, e ≠ Ev.buildCall a) :
    ∃ extra, (saveToken env fs c (evs ++ [e])).2 = evs ++ extra ∧ tailBenign extra := by
  obtain ⟨extra, hx, hb⟩ := saveToken_events env fs c (evs ++ [e])
  obtain ⟨hb1, hb2⟩ := hb
  refine ⟨e :: extra, by simp [hx], ?_, ?_⟩
  · intro hmem
    rcases List.mem_cons.mp hmem with h | h
    · exact he1 h.symm
    · exact hb1 h
  · intro a hmem
    rcases List.mem_cons.mp hmem with h | h
    · exact he2 a h.symm
    · exact hb2 a h

theorem interactiveBranch_events (env : Env) (fs : FS) (scopes : List String) (evs : List Ev) :
    ∃ extra, (interactiveBranch env fs scopes evs).events = evs ++ extra ∧ tailBenign extra := by
  simp only [interactiveBranch]
  split
  · exact ⟨[Ev.errored "credentials_missing"], rfl, by simp [tailBenign]⟩
  · split
    · exact ⟨[Ev.flowRun, Ev.errored "auth"], rfl, by simp [tailBenign]⟩
    · exact saveToken_events_after env fs _ evs Ev.flowRun (by simp) (by simp)
  · exact ⟨[Ev.errored "auth"], rfl, by simp [tailBenign]⟩

theorem refreshOrFlow_events (env : Env) (fs : FS) (scopes : List String)
    (creds : Option UserCred) (evs : List Ev) :
    ∃ extra, (refreshOrFlow env fs scopes creds evs).events = evs ++ extra ∧ tailBenign extra := by
  simp only [refreshOrFlow]
  split
  · split
    · exact ⟨[], by simp, tailBenign_nil⟩
    · split
      · split
        · exact ⟨[Ev.refreshCall, Ev.errored "auth"], rfl, by simp [tailBenign]⟩
        · exact saveToken_events_after env fs _ evs Ev.refreshCall (by simp) (by simp)
      · exact interactiveBranch_events env fs scopes evs
  · exact interactiveBranch_events env fs scopes evs

theorem refreshOrFlow_events_after (env : Env) (fs : FS) (scopes : List String)
    (creds : Option UserCred) (evs pre : List Ev) (hpre : tailBenign pre) :
    ∃ extra, (refreshOrFlow env fs scopes creds (evs ++ pre)).events = evs ++ extra ∧
      tailBenign extra := by
  obtain ⟨extra, hx, hb⟩ := refreshOrFlow_events env fs scopes creds (evs ++ pre)
  exact ⟨pre ++ extra, by simp [hx], tailBenign_append hpre hb⟩

theorem tokenStage_events (env : Env) (fs : FS) (scopes : List String) (evs : List Ev) :
    ∃ extra, (tokenStage env fs scopes evs).events = evs ++ extra ∧ tailBenign extra := by
  simp only [tokenStage]
  split
  · exact refreshOrFlow_events_after env fs scopes _ evs [Ev.readFile env.tokenPath]
      (by simp [tailBenign])
  · exact refreshOrFlow_events_after env fs scopes none evs
      [Ev.readFile env.tokenPath, Ev.warned "token"] (by simp [tailBenign])
  · exact refreshOrFlow_events env fs scopes none evs

theorem tokenStage_shape (env : Env) (fs : FS) (scopes : List String) (evs : List Ev)
    (h : ∃ mid, evs = Ev.resolveStart :: mid ∧ tailBenign mid) :
    ∃ tail, (tokenStage env fs scopes evs).events = Ev.resolveStart :: tail ∧ tailBenign tail := by
  obtain ⟨mid, hm, hbm⟩ := h
  obtain ⟨extra, he, hb⟩ := tokenStage_events env fs scopes evs
  subst hm
  exact ⟨mid ++ extra, by simp [he], tailBenign_append hbm hb⟩

theorem get_credentials_events (env : Env) (fs : FS) (scopes : List String) :
    ∃ tail, (get_credentials env fs scopes).events = Ev.resolveStart :: tail ∧
      tailBenign tail := by
  simp only [get_credentials]
  split
  · exact ⟨[], rfl, tailBenign_nil⟩
  · split
    · split
      · exact ⟨[Ev.warned "CREDENTIALS_CONFIG"], rfl, by simp [tailBenign]⟩
      · exact ⟨[], rfl, tailBenign_nil⟩
    · refine tokenStage_shape env fs scopes _ ?_
      split
      · split
        · exact ⟨[Ev.warned "CREDENTIALS_CONFIG", Ev.warned "service_account"], rfl,
            by simp [tailBenign]⟩
        · exact ⟨[Ev.warned "service_account"], rfl, by simp [tailBenign]⟩
      · split
        · exact ⟨[Ev.warned "CREDENTIALS_CONFIG"], rfl, by simp [tailBenign]⟩
        · exact ⟨[], rfl, tailBenign_nil⟩

theorem get_credentials_resolveStart_count (env : Env) (fs : FS) (scopes : List String) :
    (get_credentials env fs scopes).events.count Ev.resolveStart = 1 := by
  obtain ⟨tail, he, hb⟩ := get_credentials_events env fs scopes
  rw [he]
  simp [List.count_cons, List.count_eq_zero_of_not_mem hb.1]

theorem get_credentials_no_buildCall (env : Env) (fs : FS) (scopes : List String) (a : String) :
    Ev.buildCall a ∉ (get_credentials env fs scopes).events := by
  obtain ⟨tail, he, hb⟩ := get_credentials_events env fs scopes
  rw [he]
  simp [hb.2 a]

theorem count_resolveStart_zero {l : List Ev}
    (h : ∀ e ∈ l, e ≠ Ev.resolveStart) : l.count Ev.resolveStart = 0 :=
  List.count_eq_zero_of_not_mem (fun hm => h _ hm rfl)

theorem FS.lookup_write_self (fs : FS) (p : String) (d : FileData) :
    FS.lookup (FS.write fs p d) p = some d := by
  induction fs with
  | nil => simp [FS.write, FS.lookup]
  | cons hd tl ih =>
      obtain ⟨q, e⟩ := hd
      by_cases hq : q = p
      · simp [FS.write, FS.lookup, hq]
      · simp [FS.write, FS.lookup, hq, ih]

theorem runSheetsTool_ctx (ext : ExtCall → String) (ctx : SpreadsheetContext)
    (t : SheetsTool) : (runSheetsTool ext ctx t).2 = ctx := by
  cases t <;> rfl

theorem runDriveTool_ctx (ext : ExtCall → String) (ctx : DriveContext)
    (t : DriveTool) : (runDriveTool ext ctx t).2 = ctx := by
  cases t <;> rfl

/-! ## Claims -/

/-- C8: when the inline-encoded input `CREDENTIALS_CONFIG` is present and
well-formed, `get_credentials` returns a credential constructed directly
from it, leaves the filesystem untouched, and its trace holds no file read
or write: the filesystem-token-strategy path is never entered. -/
theorem C8_inline_shortcircuit (env : Env) (fs : FS) (scopes : List String)
    (info : String) (h : env.inline = Inline.wellFormed info) :
    get_credentials env fs scopes =
      { creds := some (CredRecord.serviceAccount info scopes)
        fs := fs
        events := [Ev.resolveStart] } := by
  simp [get_credentials, h]

theorem C8_inline_shortcircuit_witness :
    get_credentials envC1 [] scopes0 =
      { creds := some (CredRecord.serviceAccount "A" scopes0)
        fs := []
        events := [Ev.resolveStart] } :=
  C8_inline_shortcircuit envC1 [] scopes0 "A" rfl

/-- C6: when no strategy is applicable (no inline config, no
service-account file, no token file, no client-secrets file), resolution
returns no credential — the AuthenticationError case — with the filesystem
unchanged and no write in the trace. -/
theorem C6_exhaustion_no_writes (env : Env) (fs : FS) (scopes : List String)
    (h1 : env.inline = Inline.absent)
    (h2 : FS.lookup fs env.serviceAccountPath = none)
    (h3 : FS.lookup fs env.tokenPath = none)
    (h4 : FS.lookup fs env.credentialsPath = none) :
    (get_credentials env fs scopes).creds = none ∧
    (get_credentials env fs scopes).fs = fs ∧
    ∀ p, Ev.wroteFile p ∉ (get_credentials env fs scopes).events := by
  simp [get_credentials, tokenStage, h1, h2, h3, h4, saFileKey, refreshOrFlow, interactiveBranch]

theorem C6_exhaustion_no_writes_witness :
    (get_credentials baseEnv [] scopes0).creds = none ∧
    (get_credentials baseEnv [] scopes0).fs = [] ∧
    ∀ p, Ev.wroteFile p ∉ (get_credentials baseEnv [] scopes0).events :=
  C6_exhaustion_no_writes baseEnv [] scopes0 rfl rfl rfl rfl

/-- C4: with the inline and service-account strategies inapplicable and
the token file holding a valid, unexpired credential scoped to the
request, resolution returns that credential unchanged, the filesystem is
unchanged, and the trace holds no write. -/
theorem C4_valid_token_frame (env : Env) (fs : FS) (scopes : List String) (c : UserCred)
    (h1 : ∀ info, env.inline ≠ Inline.wellFormed info)
    (h2 : ∀ info, FS.lookup fs env.serviceAccountPath ≠ some (FileData.saKey info))
    (h3 : FS.lookup fs env.tokenPath = some (FileData.userToken c))
    (h4 : c.valid env.now = true)
    (h5 : c.scopes = scopes) :
    (get_credentials env fs scopes).creds = some (CredRecord.user c) ∧
    (get_credentials env fs scopes).fs = fs ∧
    ∀ p, Ev.wroteFile p ∉ (get_credentials env fs scopes).events := by
  have hcc : from_authorized_user_info c scopes = c := by
    cases c
    simp_all [from_authorized_user_info]
  have hsa : saFileKey env fs = none := by
    unfold saFileKey
    split
    · rfl
    · cases hl : FS.lookup fs env.serviceAccountPath with
      | none => simp [hl]
      | some d =>
          cases d <;> simp [hl]
          exact (h2 _ hl).elim
  cases hi : env.inline with
  | wellFormed info => exact (h1 info hi).elim
  | absent =>
      simp [get_credentials, tokenStage, hi, hsa, h3, hcc, refreshOrFlow, h4]
      split <;> simp
  | malformed =>
      simp [get_credentials, tokenStage, hi, hsa, h3, hcc, refreshOrFlow, h4]
      split <;> simp

theorem C4_valid_token_frame_witness :
    (get_credentials baseEnv [("token.json", FileData.userToken validCred)] scopes0).creds
        = some (CredRecord.user validCred) ∧
    (get_credentials baseEnv [("token.json", FileData.userToken validCred)] scopes0).fs
        = [("token.json", FileData.userToken validCred)] ∧
    ∀ p, Ev.wroteFile p ∉
      (get_credentials baseEnv [("token.json", FileData.userToken validCred)] scopes0).events :=
  C4_valid_token_frame baseEnv [("token.json", FileData.userToken validCred)] scopes0 validCred
    (by simp [baseEnv]) (by simp [baseEnv, FS.lookup]) (by decide) (by decide) (by decide)

/-- C3: with the first two strategies inapplicable and the token file
holding an expired credential with a refresh token, resolution refreshes
online and persists the refreshed credential, so the token file afterwards
holds exactly the returned record — with the new, future expiry and the
same refresh token — and reloading it reproduces that record. -/
theorem C3_refresh_roundtrip (env : Env) (fs : FS) (scopes : List String)
    (c : UserCred) (e : Nat) (r t : String) (e2 : Nat)
    (h1 : env.inline = Inline.absent)
    (h2 : FS.lookup fs env.serviceAccountPath = none)
    (h3 : FS.lookup fs env.tokenPath = some (FileData.userToken c))
    (h4 : c.expiry = some e) (h5 : e ≤ env.now)
    (h6 : c.refreshToken = some r)
    (h7 : env.refreshResult = some (t, e2)) (h8 : env.now < e2)
    (h9 : env.writeFails = false) :
    (get_credentials env fs scopes).creds =
      some (CredRecord.user ⟨some t, some r, some e2, scopes⟩) ∧
    FS.lookup (get_credentials env fs scopes).fs env.tokenPath =
      some (FileData.userToken ⟨some t, some r, some e2, scopes⟩) ∧
    from_authorized_user_info ⟨some t, some r, some e2, scopes⟩ scopes =
      ⟨some t, some r, some e2, scopes⟩ ∧
    env.now < e2 := by
  obtain ⟨ctok, cref, cexp, cscopes⟩ := c
  simp only [UserCred.expiry] at h4
  simp only [UserCred.refreshToken] at h6
  subst h4 h6
  simp [get_credentials, tokenStage, h1, h2, h3, saFileKey, refreshOrFlow, from_authorized_user_info,
    UserCred.valid, UserCred.expired, h5, h7, h9, saveToken, FS.lookup_write_self,
    h8, from_authorized_user_info]

theorem C3_refresh_roundtrip_witness :
    (get_credentials { baseEnv with refreshResult := some ("t2", 300) }
        [("token.json", FileData.userToken expiredCred)] scopes0).creds =
      some (CredRecord.user ⟨some "t2", some "r", some 300, scopes0⟩) ∧
    FS.lookup (get_credentials { baseEnv with refreshResult := some ("t2", 300) }
        [("token.json", FileData.userToken expiredCred)] scopes0).fs
        { baseEnv with refreshResult := some ("t2", 300) }.tokenPath =
      some (FileData.userToken ⟨some "t2", some "r", some 300, scopes0⟩) ∧
    from_authorized_user_info ⟨some "t2", some "r", some 300, scopes0⟩ scopes0 =
      ⟨some "t2", some "r", some 300, scopes0⟩ ∧
    { baseEnv with refreshResult := some ("t2", 300) }.now < 300 :=
  C3_refresh_roundtrip { baseEnv with refreshResult := some ("t2", 300) }
    [("token.json", FileData.userToken expiredCred)] scopes0 expiredCred 50 "r" "t2" 300
    rfl rfl rfl rfl (by decide) rfl rfl (by decide) rfl

/-- C10: in the shared resolver, when a credential is obtained by refresh
or by the interactive flow but the token-file write fails, the failure is
swallowed (a warning is logged), the filesystem is unchanged, and the
resolver still returns the fresh credential. -/
theorem C10_save_best_effort :
    (∀ (env : Env) (fs : FS) (scopes : List String) (c : UserCred) (e : Nat) (r t : String)
        (e2 : Nat),
      env.inline = Inline.absent →
      FS.lookup fs env.serviceAccountPath = none →
      FS.lookup fs env.tokenPath = some (FileData.userToken c) →
      c.expiry = some e → e ≤ env.now →
      c.refreshToken = some r →
      env.refreshResult = some (t, e2) →
      env.writeFails = true →
      (get_credentials env fs scopes).creds =
        some (CredRecord.user ⟨some t, some r, some e2, scopes⟩) ∧
      (get_credentials env fs scopes).fs = fs ∧
      Ev.warned "save_token" ∈ (get_credentials env fs scopes).events) ∧
    (∀ (env : Env) (fs : FS) (scopes : List String) (c : UserCred) (cs : String),
      env.inline = Inline.absent →
      FS.lookup fs env.serviceAccountPath = none →
      FS.lookup fs env.tokenPath = none →
      FS.lookup fs env.credentialsPath = some (FileData.clientSecrets cs) →
      env.flowResult = some c →
      env.writeFails = true →
      (get_credentials env fs scopes).creds =
        some (CredRecord.user { c with scopes := scopes }) ∧
      (get_credentials env fs scopes).fs = fs ∧
      Ev.warned "save_token" ∈ (get_credentials env fs scopes).events) := by
  constructor
  · intro env fs scopes c e r t e2 h1 h2 h3 h4 h5 h6 h7 h9
    obtain ⟨ctok, cref, cexp, cscopes⟩ := c
    simp only [UserCred.expiry] at h4
    simp only [UserCred.refreshToken] at h6
    subst h4 h6
    simp [get_credentials, tokenStage, h1, h2, h3, saFileKey, refreshOrFlow, from_authorized_user_info,
      UserCred.valid, UserCred.expired, h5, h7, h9, saveToken]
  · intro env fs scopes c cs h1 h2 h3 h4 h5 h9
    simp [get_credentials, tokenStage, h1, h2, h3, h4, h5, saFileKey, refreshOrFlow, interactiveBranch,
      saveToken, h9]

theorem C10_save_best_effort_witness :
    (get_credentials { baseEnv with refreshResult := some ("t2", 300), writeFails := true }
        [("token.json", FileData.userToken expiredCred)] scopes0).creds =
      some (CredRecord.user ⟨some "t2", some "r", some 300, scopes0⟩) ∧
    (get_credentials { baseEnv with refreshResult := some ("t2", 300), writeFails := true }
        [("token.json", FileData.userToken expiredCred)] scopes0).fs =
      [("token.json", FileData.userToken expiredCred)] ∧
    Ev.warned "save_token" ∈
      (get_credentials { baseEnv with refreshResult := some ("t2", 300), writeFails := true }
        [("token.json", FileData.userToken expiredCred)] scopes0).events :=
  C10_save_best_effort.1 { baseEnv with refreshResult := some ("t2", 300), writeFails := true }
    [("token.json", FileData.userToken expiredCred)] scopes0 expiredCred 50 "r" "t2" 300
    rfl rfl rfl rfl (by decide) rfl rfl rfl

/-- C1 counterexample: in a variant lifespan the inline strategy succeeds
(`CREDENTIALS_CONFIG` holds well-formed contents `A`), yet the
service-account-file strategy is still attempted and its result — a
different record, built from file contents `B` — is what the lifespan
returns, contradicting "when an earlier strategy succeeds, no later
strategy is attempted and its result is not overwritten". -/
theorem C1_counterexample :
    envC1.inline = Inline.wellFormed "A" ∧
    FS.lookup fsC1 envC1.serviceAccountPath = some (FileData.saKey "B") ∧
    lifespan_credentials envC1 fsC1 scopes0 =
      LifespanResult.ok (CredRecord.serviceAccount "B" scopes0) fsC1 [] ∧
    CredRecord.serviceAccount "B" scopes0 ≠ CredRecord.serviceAccount "A" scopes0 := by
  refine ⟨rfl, rfl, rfl, ?_⟩
  decide

/-- C1 amended: in the shared resolver the strategies are tried in order
and the first success returns immediately (no later strategy runs, no
token-file activity).  In the variant lifespans the service-account-file
strategy is attempted even when the inline strategy succeeded, and when
the file holds a parsable key its record replaces the inline one; only
when the first two stages leave no credential are the stored-token and
interactive strategies attempted — in particular, with no service-account
file present an inline success is returned with no token-file activity. -/
theorem C1_order_amended :
    (∀ (env : Env) (fs : FS) (scopes : List String) (info : String),
      env.inline = Inline.wellFormed info →
      get_credentials env fs scopes =
        { creds := some (CredRecord.serviceAccount info scopes)
          fs := fs, events := [Ev.resolveStart] }) ∧
    (∀ (env : Env) (fs : FS) (scopes : List String) (info : String),
      env.inline = Inline.absent → saFileKey env fs = some info →
      (get_credentials env fs scopes).creds = some (CredRecord.serviceAccount info scopes) ∧
      (get_credentials env fs scopes).fs = fs ∧
      (∀ p, Ev.readFile p ∉ (get_credentials env fs scopes).events ∧
            Ev.wroteFile p ∉ (get_credentials env fs scopes).events) ∧
      Ev.refreshCall ∉ (get_credentials env fs scopes).events ∧
      Ev.flowRun ∉ (get_credentials env fs scopes).events) ∧
    (∀ (env : Env) (fs : FS) (scopes : List String) (infoA infoB : String),
      env.inline = Inline.wellFormed infoA →
      env.serviceAccountPath ≠ "" →
      FS.lookup fs env.serviceAccountPath = some (FileData.saKey infoB) →
      lifespan_credentials env fs scopes =
        LifespanResult.ok (CredRecord.serviceAccount infoB scopes) fs []) ∧
    (∀ (env : Env) (fs : FS) (scopes : List String) (info : String),
      env.inline = Inline.wellFormed info →
      FS.lookup fs env.serviceAccountPath = none →
      lifespan_credentials env fs scopes =
        LifespanResult.ok (CredRecord.serviceAccount info scopes) fs []) := by
  refine ⟨?_, ?_, ?_, ?_⟩
  · intro env fs scopes info h
    simp [get_credentials, h]
  · intro env fs scopes info h1 h2
    simp [get_credentials, h1, h2]
  · intro env fs scopes infoA infoB h1 h2 h3
    simp [lifespan_credentials, h1, h2, h3]
  · intro env fs scopes info h1 h2
    simp [lifespan_credentials, h1, h2]

theorem C1_order_amended_witness :
    get_credentials envC1 [] scopes0 =
      { creds := some (CredRecord.serviceAccount "A" scopes0)
        fs := ([] : FS), events := [Ev.resolveStart] } :=
  C1_order_amended.1 envC1 [] scopes0 "A" rfl

/-- C2 counterexample: the inline and service-account strategies are
inapplicable, the stored token is expired with a refresh token, the
refresh fails, and the interactive strategy is applicable and would
succeed (client-secrets file present, flow oracle succeeds) — yet
resolution returns no credential and the flow is never run, contradicting
"a refresh failure falls through to the next strategy" and
"AuthenticationError only when all four strategies have been exhausted". -/
theorem C2_counterexample :
    (get_credentials envC2 fsC2 scopes0).creds = none ∧
    Ev.flowRun ∉ (get_credentials envC2 fsC2 scopes0).events ∧
    envC2.flowResult = some flowCred0 ∧
    FS.lookup fsC2 envC2.credentialsPath = some (FileData.clientSecrets "cs") := by
  refine ⟨rfl, ?_, rfl, rfl⟩
  decide

/-- C2 amended: parse/load failures in the inline, service-account-file
and stored-token strategies are swallowed, logged, and fall through to the
next strategy; but a failure of the online refresh is caught by the outer
handler and fails resolution immediately — logged as an auth error, with
the interactive strategy never attempted. -/
theorem C2_fallthrough_amended :
    (∀ (env : Env) (fs : FS) (scopes : List String) (c : UserCred),
      env.inline = Inline.malformed →
      FS.lookup fs env.serviceAccountPath = none →
      FS.lookup fs env.tokenPath = some (FileData.userToken c) →
      c.valid env.now = true → c.scopes = scopes →
      (get_credentials env fs scopes).creds = some (CredRecord.user c) ∧
      Ev.warned "CREDENTIALS_CONFIG" ∈ (get_credentials env fs scopes).events) ∧
    (∀ (env : Env) (fs : FS) (scopes : List String) (c : UserCred),
      env.inline = Inline.absent →
      env.serviceAccountPath ≠ "" →
      FS.lookup fs env.serviceAccountPath = some FileData.invalid →
      FS.lookup fs env.tokenPath = some (FileData.userToken c) →
      c.valid env.now = true → c.scopes = scopes →
      (get_credentials env fs scopes).creds = some (CredRecord.user c) ∧
      Ev.warned "service_account" ∈ (get_credentials env fs scopes).events) ∧
    (∀ (env : Env) (fs : FS) (scopes : List String) (c : UserCred) (cs : String),
      env.inline = Inline.absent →
      FS.lookup fs env.serviceAccountPath = none →
      FS.lookup fs env.tokenPath = some FileData.invalid →
      FS.lookup fs env.credentialsPath = some (FileData.clientSecrets cs) →
      env.flowResult = some c → env.writeFails = false →
      (get_credentials env fs scopes).creds = some (CredRecord.user { c with scopes := scopes }) ∧
      Ev.warned "token" ∈ (get_credentials env fs scopes).events) ∧
    (∀ (env : Env) (fs : FS) (scopes : List String) (c : UserCred) (e : Nat) (r : String),
      env.inline = Inline.absent →
      FS.lookup fs env.serviceAccountPath = none →
      FS.lookup fs env.tokenPath = some (FileData.userToken c) →
      c.expiry = some e → e ≤ env.now →
      c.refreshToken = some r →
      env.refreshResult = none →
      (get_credentials env fs scopes).creds = none ∧
      Ev.flowRun ∉ (get_credentials env fs scopes).events ∧
      Ev.errored "auth" ∈ (get_credentials env fs scopes).events) := by
  refine ⟨?_, ?_, ?_, ?_⟩
  · intro env fs scopes c h1 h2 h3 h4 h5
    have hcc : from_authorized_user_info c scopes = c := by
      cases c
      simp_all [from_authorized_user_info]
    simp [get_credentials, tokenStage, h1, h2, h3, saFileKey, refreshOrFlow, hcc, h4]
  · intro env fs scopes c h1 h2 h3 h4 h5 h6
    have hcc : from_authorized_user_info c scopes = c := by
      cases c
      simp_all [from_authorized_user_info]
    simp [get_credentials, tokenStage, h1, h2, h3, h4, saFileKey, refreshOrFlow, hcc, h5]
  · intro env fs scopes c cs h1 h2 h3 h4 h5 h6
    simp [get_credentials, tokenStage, h1, h2, h3, h4, h5, h6, saFileKey, refreshOrFlow,
      interactiveBranch, saveToken]
  · intro env fs scopes c e r h1 h2 h3 h4 h5 h6 h7
    obtain ⟨ctok, cref, cexp, cscopes⟩ := c
    simp only [UserCred.expiry] at h4
    simp only [UserCred.refreshToken] at h6
    subst h4 h6
    simp [get_credentials, tokenStage, h1, h2, h3, saFileKey, refreshOrFlow, from_authorized_user_info,
      UserCred.valid, UserCred.expired, h5, h7]

theorem C2_fallthrough_amended_witness :
    (get_credentials { baseEnv with inline := Inline.malformed }
        [("token.json", FileData.userToken validCred)] scopes0).creds =
      some (CredRecord.user validCred) ∧
    Ev.warned "CREDENTIALS_CONFIG" ∈
      (get_credentials { baseEnv with inline := Inline.malformed }
        [("token.json", FileData.userToken validCred)] scopes0).events :=
  C2_fallthrough_amended.1 { baseEnv with inline := Inline.malformed }
    [("token.json", FileData.userToken validCred)] scopes0 validCred
    rfl rfl rfl (by decide) rfl

/-- C5 counterexample: with `CREDENTIALS_CONFIG` present but malformed, a
variant lifespan raises the parse failure instead of logging it and
falling through — the failure is fatal to startup, contradicting "in each
server variant's startup lifespan ... the failure is never fatal". -/
theorem C5_counterexample :
    envC5.inline = Inline.malformed ∧
    lifespan_credentials envC5 [] scopes0 = LifespanResult.raised "inline_parse" [] [] ∧
    spreadsheet_lifespan envC5 [] none =
      LifespanCtx.raised "inline_parse" [] [] := by
  exact ⟨rfl, rfl, rfl⟩

/-- C5 amended: in the shared resolver a present-but-malformed
`CREDENTIALS_CONFIG` is logged and resolution falls through to the next
strategy (here: the service-account file wins), never fatally; but in the
server variants' lifespans the inline parse is not guarded and a malformed
value raises, aborting startup. -/
theorem C5_inline_parse_amended :
    (∀ (env : Env) (fs : FS) (scopes : List String) (info : String),
      env.inline = Inline.malformed → saFileKey env fs = some info →
      (get_credentials env fs scopes).creds = some (CredRecord.serviceAccount info scopes) ∧
      Ev.warned "CREDENTIALS_CONFIG" ∈ (get_credentials env fs scopes).events) ∧
    (∀ (env : Env) (fs : FS) (scopes : List String),
      env.inline = Inline.malformed →
      lifespan_credentials env fs scopes = LifespanResult.raised "inline_parse" fs []) := by
  constructor
  · intro env fs scopes info h1 h2
    simp [get_credentials, h1, h2]
  · intro env fs scopes h
    simp [lifespan_credentials, h]

theorem C5_inline_parse_amended_witness :
    (get_credentials envC5 fsC1 scopes0).creds = some (CredRecord.serviceAccount "B" scopes0) ∧
    Ev.warned "CREDENTIALS_CONFIG" ∈ (get_credentials envC5 fsC1 scopes0).events :=
  C5_inline_parse_amended.1 envC5 fsC1 scopes0 "B" rfl rfl

/-- C7: `create_service` makes exactly one resolution attempt per call —
its trace always holds exactly one `resolveStart` — and when resolution
fails it returns no handle and never calls `build`. -/
theorem C7_single_resolution :
    (∀ (env : Env) (fs : FS) (api ver : String) (scopes : List String),
      (get_credentials env fs scopes).creds = none →
      (create_service env fs api ver scopes).service = none ∧
      ∀ a, Ev.buildCall a ∉ (create_service env fs api ver scopes).events) ∧
    (∀ (env : Env) (fs : FS) (api ver : String) (scopes : List String),
      (create_service env fs api ver scopes).events.count Ev.resolveStart = 1) := by
  constructor
  · intro env fs api ver scopes h
    refine ⟨by simp [create_service, h], ?_⟩
    intro a
    simp only [create_service, h]
    simp [get_credentials_no_buildCall env fs scopes a]
  · intro env fs api ver scopes
    simp only [create_service]
    cases h : (get_credentials env fs scopes).creds with
    | none =>
        simp [List.count_append, get_credentials_resolveStart_count,
          count_resolveStart_zero (l := [Ev.errored "no_creds"]) (by simp)]
    | some c =>
        by_cases hb : env.buildFails
        · simp [hb, List.count_append, get_credentials_resolveStart_count,
            count_resolveStart_zero (l := [Ev.buildCall api, Ev.errored "build"]) (by simp)]
        · simp [hb, List.count_append, get_credentials_resolveStart_count,
            count_resolveStart_zero (l := [Ev.buildCall api]) (by simp)]

theorem C7_single_resolution_witness :
    ((create_service baseEnv [] "drive" "v3" scopes0).service = none ∧
      ∀ a, Ev.buildCall a ∉ (create_service baseEnv [] "drive" "v3" scopes0).events) ∧
    (create_service baseEnv [] "drive" "v3" scopes0).events.count Ev.resolveStart = 1 :=
  ⟨C7_single_resolution.1 baseEnv [] "drive" "v3" scopes0 rfl,
   C7_single_resolution.2 baseEnv [] "drive" "v3" scopes0⟩

/-- C9: the tool-dispatch context is read-only for the whole serving loop:
serving any sequence of tool calls against the context a lifespan yielded
produces the same results as giving every single call the startup context,
and leaves the context unchanged — no tool invocation writes any context
field, in the sheets server and in the drive server alike. -/
theorem C9_context_readonly (ext : ExtCall → String) :
    (∀ (ctx : SpreadsheetContext) (ts : List SheetsTool),
      serveSheets ext ctx ts = (ts.map (fun t => (runSheetsTool ext ctx t).1), ctx)) ∧
    (∀ (ctx : DriveContext) (ts : List DriveTool),
      serveDrive ext ctx ts = (ts.map (fun t => (runDriveTool ext ctx t).1), ctx)) := by
  constructor
  · intro ctx ts
    induction ts with
    | nil => simp [serveSheets]
    | cons t ts ih => simp [serveSheets, runSheetsTool_ctx, ih]
  · intro ctx ts
    induction ts with
    | nil => simp [serveDrive]
    | cons t ts ih => simp [serveDrive, runDriveTool_ctx, ih]

theorem C9_context_readonly_witness :
    serveSheets (fun _ => "ok")
      { sheets_service := ⟨"sheets", "v4", CredRecord.serviceAccount "A" scopes0⟩
        drive_service := ⟨"drive", "v3", CredRecord.serviceAccount "A" scopes0⟩
        folder_id := none }
      [SheetsTool.list_sheets "sid", SheetsTool.clear_values "sid" "A1:B2"] =
      (["ok", "ok"],
        { sheets_service := ⟨"sheets", "v4", CredRecord.serviceAccount "A" scopes0⟩
          drive_service := ⟨"drive", "v3", CredRecord.serviceAccount "A" scopes0⟩
          folder_id := none }) := by
  rw [(C9_context_readonly (fun _ => "ok")).1]
  rfl

end GoogleMCP
